import Mathlib

/-!
Shallow embedding of `gpio.c` / `gpio.h` (sysfs GPIO wrapper).

Each C function performs a fixed sequence of syscalls (`access`, `open`,
`write`/`read`, `close`).  We model the operating system as an abstract
environment `SysEnv` that answers each syscall, and each C function as a
pure Lean function from that environment to its boolean result together
with the trace of filesystem events it performed.  C enums are modelled as
`Int` (as in C, an enum parameter can hold a value matching no declared
enumerator, so the `default:` branches of the switches are reachable).
File descriptors are modelled as `Nat` (a successful `open` returns a
nonnegative descriptor); syscall return codes are `Int`.
-/

namespace LinuxGpio

/-- Flags of the `open` syscall used by the source. -/
inductive OpenFlags where
  | wronly
  | rdonly
  | rdonlyNonblock
deriving DecidableEq, Repr

/-- One filesystem event performed by a call, in order. -/
inductive Event where
  /-- Existence check `access(path, F_OK)`. -/
  | acc (path : String)
  /-- Call of `open(path, flags)` with its result (`some fd` on success). -/
  | openEv (path : String) (flags : OpenFlags) (res : Option Nat)
  /-- Call of `write(fd, data, data.length)`. -/
  | writeEv (fd : Nat) (data : String)
  /-- Call of `read(fd, &ch, 1)`. -/
  | readEv (fd : Nat)
  /-- Call of `close(fd)`. -/
  | closeEv (fd : Nat)
deriving DecidableEq, Repr

/-- Outcome of `read(fd, &ch, 1)`: `none` is a hard error (return `-1`),
`some none` is a zero-length read (return `0`, buffer untouched),
`some (some c)` is a one-byte read of `c` (return `1`). -/
abbrev ReadOutcome := Option (Option Char)

/-- Abstract operating-system behaviour answering each syscall the source
makes.  `pathExists p` is `access(p, F_OK) == 0`; `openFile` returns the
descriptor (`none` when `open` returns a negative value); `writeRes fd s`
is the return value of `write(fd, s, s.length)`; `readByte` is the outcome
of `read(fd, &ch, 1)`; `closeRes fd` is the return value of `close(fd)`. -/
structure SysEnv where
  pathExists : String → Bool
  openFile : String → OpenFlags → Option Nat
  writeRes : Nat → String → Int
  readByte : Nat → ReadOutcome
  closeRes : Nat → Int

/-- The C macro SYS_GPIO_DIR, the sysfs gpio directory. -/
def SYS_GPIO_DIR : String := "/sys/class/gpio"

/-- The C macro CMD_BUF_MAX_LEN, the size of the path buffer. -/
def CMD_BUF_MAX_LEN : Nat := 60

/-- Fuel-based accumulator loop producing the decimal digits of `n`
(the model of `snprintf`'s `%d` conversion). -/
def decDigitsCore : Nat → Nat → List Char → List Char
  | 0, _, acc => acc
  | fuel + 1, n, acc =>
    if n < 10 then Nat.digitChar n :: acc
    else decDigitsCore fuel (n / 10) (Nat.digitChar (n % 10) :: acc)

/-- Decimal ASCII representation of `n`, as written by `snprintf("%d", n)`. -/
def decStr (n : Nat) : String := String.mk (decDigitsCore (n + 1) n [])

/-- Path built by `snprintf("%s/gpio%d", SYS_GPIO_DIR, gpio_num)`. -/
def gpioDirPath (gpio_num : Nat) : String := SYS_GPIO_DIR ++ "/gpio" ++ decStr gpio_num

/-- Path built by `snprintf("%s/export", SYS_GPIO_DIR)`. -/
def exportPath : String := SYS_GPIO_DIR ++ "/export"

/-- Path built by `snprintf("%s/unexport", SYS_GPIO_DIR)`. -/
def unexportPath : String := SYS_GPIO_DIR ++ "/unexport"

/-- Path built by `snprintf("%s/gpio%d/direction", ...)`. -/
def directionPath (gpio_num : Nat) : String := gpioDirPath gpio_num ++ "/direction"

/-- Path built by `snprintf("%s/gpio%d/value", ...)`. -/
def valuePath (gpio_num : Nat) : String := gpioDirPath gpio_num ++ "/value"

/-- Path built by `snprintf("%s/gpio%d/edge", ...)`. -/
def edgePath (gpio_num : Nat) : String := gpioDirPath gpio_num ++ "/edge"

/-- Enumerator `E_GPIO_IN = 0` of `gpio_direction_e`. -/
def E_GPIO_IN : Int := 0
/-- Enumerator `E_GPIO_OUT = 1` of `gpio_direction_e`. -/
def E_GPIO_OUT : Int := 1
/-- Enumerator `E_GPIO_LOW = 0` of `gpio_value_e`. -/
def E_GPIO_LOW : Int := 0
/-- Enumerator `E_GPIO_HIGH = 1` of `gpio_value_e`. -/
def E_GPIO_HIGH : Int := 1
/-- Enumerator `E_GPIO_NONE = 0` of `gpio_edge_e`. -/
def E_GPIO_NONE : Int := 0
/-- Enumerator `E_GPIO_RISING = 1` of `gpio_edge_e`. -/
def E_GPIO_RISING : Int := 1
/-- Enumerator `E_GPIO_FALLING = 2` of `gpio_edge_e`. -/
def E_GPIO_FALLING : Int := 2
/-- Enumerator `E_GPIO_BOTH = 3` of `gpio_edge_e`. -/
def E_GPIO_BOTH : Int := 3

/-- Model of `bool gpio_export(const uint16_t gpio_num)` from `gpio.c`.
Returns the C boolean result and the trace of filesystem events. -/
def gpio_export (env : SysEnv) (gpio_num : Nat) : Bool × List Event :=
  let dir := gpioDirPath gpio_num
  -- ret = access(cmd_buf, F_OK); if (0 == ret) return true;
  if env.pathExists dir then
    (true, [.acc dir])
  else
    -- fd = open("/sys/class/gpio/export", O_WRONLY); if (fd < 0) return false;
    match env.openFile exportPath .wronly with
    | none => (false, [.acc dir, .openEv exportPath .wronly none])
    | some fd =>
      -- len = snprintf(cmd_buf, sizeof(cmd_buf), "%d", gpio_num);
      let buf := decStr gpio_num
      let len : Int := buf.length
      -- ret = write(fd, cmd_buf, len); if (len != ret) { close(fd); return false; }
      let ret := env.writeRes fd buf
      let tr := [Event.acc dir, Event.openEv exportPath .wronly (some fd),
                 Event.writeEv fd buf, Event.closeEv fd]
      if len ≠ ret then
        (false, tr)
      else
        -- ret = close(fd); if (0 != ret) return false;
        if env.closeRes fd ≠ 0 then (false, tr) else (true, tr)

/-- Model of `bool gpio_unexport(const uint16_t gpio_num)` from `gpio.c`. -/
def gpio_unexport (env : SysEnv) (gpio_num : Nat) : Bool × List Event :=
  let dir := gpioDirPath gpio_num
  -- ret = access(cmd_buf, F_OK); if (-1 == ret) return true;
  if ¬ env.pathExists dir then
    (true, [.acc dir])
  else
    match env.openFile unexportPath .wronly with
    | none => (false, [.acc dir, .openEv unexportPath .wronly none])
    | some fd =>
      let buf := decStr gpio_num
      let len : Int := buf.length
      let ret := env.writeRes fd buf
      let tr := [Event.acc dir, Event.openEv unexportPath .wronly (some fd),
                 Event.writeEv fd buf, Event.closeEv fd]
      if len ≠ ret then
        (false, tr)
      else
        if env.closeRes fd ≠ 0 then (false, tr) else (true, tr)

/-- Model of `bool gpio_set_direction(const uint16_t gpio_num, const gpio_direction_e direction)`
from `gpio.c`.  The `direction` parameter is an `Int`, as a C enum is. -/
def gpio_set_direction (env : SysEnv) (gpio_num : Nat) (direction : Int) :
    Bool × List Event :=
  let dir := gpioDirPath gpio_num
  -- ret = access(cmd_buf, F_OK); if (-1 == ret) return false;
  if ¬ env.pathExists dir then
    (false, [.acc dir])
  else
    let p := directionPath gpio_num
    match env.openFile p .wronly with
    | none => (false, [.acc dir, .openEv p .wronly none])
    | some fd =>
      let tr0 := [Event.acc dir, Event.openEv p .wronly (some fd)]
      if direction = E_GPIO_IN then
        let ret := env.writeRes fd "in"
        if ret = -1 then
          (false, tr0 ++ [.writeEv fd "in", .closeEv fd])
        else if env.closeRes fd = -1 then
          (false, tr0 ++ [.writeEv fd "in", .closeEv fd])
        else
          (true, tr0 ++ [.writeEv fd "in", .closeEv fd])
      else if direction = E_GPIO_OUT then
        let ret := env.writeRes fd "out"
        if ret = -1 then
          (false, tr0 ++ [.writeEv fd "out", .closeEv fd])
        else if env.closeRes fd = -1 then
          (false, tr0 ++ [.writeEv fd "out", .closeEv fd])
        else
          (true, tr0 ++ [.writeEv fd "out", .closeEv fd])
      else
        -- default: { return false; }   (no close of fd)
        (false, tr0)

/-- Model of `bool gpio_set_value(const uint16_t gpio_num, const gpio_value_e value)`
from `gpio.c`. -/
def gpio_set_value (env : SysEnv) (gpio_num : Nat) (value : Int) :
    Bool × List Event :=
  let dir := gpioDirPath gpio_num
  if ¬ env.pathExists dir then
    (false, [.acc dir])
  else
    let p := valuePath gpio_num
    match env.openFile p .wronly with
    | none => (false, [.acc dir, .openEv p .wronly none])
    | some fd =>
      let tr0 := [Event.acc dir, Event.openEv p .wronly (some fd)]
      if value = E_GPIO_LOW then
        let ret := env.writeRes fd "0"
        if ret = -1 then
          (false, tr0 ++ [.writeEv fd "0", .closeEv fd])
        else if env.closeRes fd = -1 then
          (false, tr0 ++ [.writeEv fd "0", .closeEv fd])
        else
          (true, tr0 ++ [.writeEv fd "0", .closeEv fd])
      else if value = E_GPIO_HIGH then
        let ret := env.writeRes fd "1"
        if ret = -1 then
          (false, tr0 ++ [.writeEv fd "1", .closeEv fd])
        else if env.closeRes fd = -1 then
          (false, tr0 ++ [.writeEv fd "1", .closeEv fd])
        else
          (true, tr0 ++ [.writeEv fd "1", .closeEv fd])
      else
        -- default: { return false; }   (no close of fd)
        (false, tr0)

/-- Model of `bool gpio_get_value(gpio_value_e *value, const uint16_t gpio_num)` from
`gpio.c`.  `value_null` models `value == NULL`; the middle component of the
result is the value stored through the pointer (`none` when the pointee is
left untouched). -/
def gpio_get_value (env : SysEnv) (value_null : Bool) (gpio_num : Nat) :
    Bool × Option Int × List Event :=
  -- if (!value) return false;
  if value_null then (false, none, [])
  else
    let dir := gpioDirPath gpio_num
    -- ret = access(cmd_buf, F_OK); if (-1 == ret) return false;
    if ¬ env.pathExists dir then
      (false, none, [.acc dir])
    else
      let p := valuePath gpio_num
      -- fd = open(cmd_buf, O_RDONLY); if (fd < 0) return false;
      match env.openFile p .rdonly with
      | none => (false, none, [.acc dir, .openEv p .rdonly none])
      | some fd =>
        let tr0 := [Event.acc dir, Event.openEv p .rdonly (some fd), Event.readEv fd]
        -- ret = read(fd, &ch, 1); if (-1 == ret) { close(fd); return false; }
        match env.readByte fd with
        | none => (false, none, tr0 ++ [.closeEv fd])
        | some b =>
          -- char ch = 0; a zero-length read leaves ch unchanged
          let ch : Char := match b with
            | none => Char.ofNat 0
            | some c => c
          if ch = '0' then
            -- *value = E_GPIO_LOW; then ret = close(fd); if (-1 == ret) return false;
            if env.closeRes fd = -1 then
              (false, some E_GPIO_LOW, tr0 ++ [.closeEv fd])
            else
              (true, some E_GPIO_LOW, tr0 ++ [.closeEv fd])
          else if ch = '1' then
            if env.closeRes fd = -1 then
              (false, some E_GPIO_HIGH, tr0 ++ [.closeEv fd])
            else
              (true, some E_GPIO_HIGH, tr0 ++ [.closeEv fd])
          else
            -- default: { close(fd); return false; }
            (false, none, tr0 ++ [.closeEv fd])

/-- Model of `bool gpio_set_edge(const uint16_t gpio_num, const gpio_edge_e edge)`
from `gpio.c`. -/
def gpio_set_edge (env : SysEnv) (gpio_num : Nat) (edge : Int) :
    Bool × List Event :=
  let dir := gpioDirPath gpio_num
  if ¬ env.pathExists dir then
    (false, [.acc dir])
  else
    let p := edgePath gpio_num
    match env.openFile p .wronly with
    | none => (false, [.acc dir, .openEv p .wronly none])
    | some fd =>
      let tr0 := [Event.acc dir, Event.openEv p .wronly (some fd)]
      if edge = E_GPIO_NONE then
        let ret := env.writeRes fd "none"
        if ret = -1 then
          (false, tr0 ++ [.writeEv fd "none", .closeEv fd])
        else if env.closeRes fd = -1 then
          (false, tr0 ++ [.writeEv fd "none", .closeEv fd])
        else
          (true, tr0 ++ [.writeEv fd "none", .closeEv fd])
      else if edge = E_GPIO_RISING then
        let ret := env.writeRes fd "rising"
        if ret = -1 then
          (false, tr0 ++ [.writeEv fd "rising", .closeEv fd])
        else if env.closeRes fd = -1 then
          (false, tr0 ++ [.writeEv fd "rising", .closeEv fd])
        else
          (true, tr0 ++ [.writeEv fd "rising", .closeEv fd])
      else if edge = E_GPIO_FALLING then
        let ret := env.writeRes fd "falling"
        if ret = -1 then
          (false, tr0 ++ [.writeEv fd "falling", .closeEv fd])
        else if env.closeRes fd = -1 then
          (false, tr0 ++ [.writeEv fd "falling", .closeEv fd])
        else
          (true, tr0 ++ [.writeEv fd "falling", .closeEv fd])
      else if edge = E_GPIO_BOTH then
        let ret := env.writeRes fd "both"
        if ret = -1 then
          (false, tr0 ++ [.writeEv fd "both", .closeEv fd])
        else if env.closeRes fd = -1 then
          (false, tr0 ++ [.writeEv fd "both", .closeEv fd])
        else
          (true, tr0 ++ [.writeEv fd "both", .closeEv fd])
      else
        -- default: { return false; }   (no close of fd)
        (false, tr0)

/-- Model of `int gpio_open(const uint16_t gpio_num)` from `gpio.c`: opens
`gpioN/value` with `O_RDONLY | O_NONBLOCK`; returns the descriptor, or `-1`
when `open` fails. -/
def gpio_open (env : SysEnv) (gpio_num : Nat) : Int × List Event :=
  let p := valuePath gpio_num
  match env.openFile p .rdonlyNonblock with
  | none => (-1, [.openEv p .rdonlyNonblock none])
  | some fd => ((fd : Int), [.openEv p .rdonlyNonblock (some fd)])

/-- Model of `bool gpio_close(const int fd)` from `gpio.c`. -/
def gpio_close (env : SysEnv) (fd : Nat) : Bool × List Event :=
  (env.closeRes fd = 0, [.closeEv fd])

/-- Paths of all `open` attempts in a trace (successful or not). -/
def openAttempts (tr : List Event) : List String :=
  tr.filterMap fun e => match e with
    | .openEv p _ _ => some p
    | _ => none

/-- Descriptors successfully opened in a trace. -/
def opensOf (tr : List Event) : List Nat :=
  tr.filterMap fun e => match e with
    | .openEv _ _ (some fd) => some fd
    | _ => none

/-- Descriptors closed in a trace. -/
def closesOf (tr : List Event) : List Nat :=
  tr.filterMap fun e => match e with
    | .closeEv fd => some fd
    | _ => none

/-- Writes performed in a trace, as (descriptor, data) pairs. -/
def writesOf (tr : List Event) : List (Nat × String) :=
  tr.filterMap fun e => match e with
    | .writeEv fd s => some (fd, s)
    | _ => none

/-- Descriptors read from in a trace. -/
def readsOf (tr : List Event) : List Nat :=
  tr.filterMap fun e => match e with
    | .readEv fd => some fd
    | _ => none

/-- Every descriptor opened in the trace is also closed in it. -/
def closesAllOpens (tr : List Event) : Prop :=
  ∀ fd, fd ∈ opensOf tr → fd ∈ closesOf tr

instance (tr : List Event) : Decidable (closesAllOpens tr) := by
  unfold closesAllOpens
  exact List.decidableBAll _ _


/-- Environment in which every path exists, every open yields descriptor 3,
reads yield the byte `'0'`, writes transfer the full buffer, and every close
fails with `-1`. -/
def envCloseFail : SysEnv where
  pathExists := fun _ => true
  openFile := fun _ _ => some 3
  writeRes := fun _ s => (s.length : Int)
  readByte := fun _ => some (some '0')
  closeRes := fun _ => -1

/-- Variant of `envCloseFail` in which no path exists, so `gpio_export`
proceeds to write to the export file. -/
def envExportCloseFail : SysEnv :=
  { envCloseFail with pathExists := fun _ => false }

/-- Environment in which every path exists, opens succeed with descriptor 3
and all writes and closes succeed. -/
def envAllOk : SysEnv where
  pathExists := fun _ => true
  openFile := fun _ _ => some 3
  writeRes := fun _ s => (s.length : Int)
  readByte := fun _ => some (some '0')
  closeRes := fun _ => 0

/-- Environment in which no path exists and every syscall fails. -/
def envAbsent : SysEnv where
  pathExists := fun _ => false
  openFile := fun _ _ => none
  writeRes := fun _ _ => -1
  readByte := fun _ => none
  closeRes := fun _ => -1

/-- Environment in which only `/sys/class/gpio/gpio7` exists, opens succeed
with descriptor 3, every write is short (returns 0) and closes succeed. -/
def envShortWrite : SysEnv where
  pathExists := fun p => p == gpioDirPath 7
  openFile := fun _ _ => some 3
  writeRes := fun _ _ => 0
  readByte := fun _ => some (some '0')
  closeRes := fun _ => 0

/-- The digits loop produces at most `k` digits from a number below `10 ^ k`
(on top of the accumulator), for any fuel. -/
theorem decDigitsCore_length (fuel : Nat) : ∀ k n acc, n < 10 ^ k → 1 ≤ k →
    (decDigitsCore fuel n acc).length ≤ k + acc.length := by
  induction fuel with
  | zero =>
    intro k n acc _ _
    simp only [decDigitsCore]
    omega
  | succ fuel ih =>
    intro k n acc hn hk
    simp only [decDigitsCore]
    split
    · simp only [List.length_cons]
      omega
    · rename_i h10
      have hk2 : 2 ≤ k := by
        by_contra hlt
        have hk1 : k = 1 := by omega
        subst hk1
        simp only [pow_one] at hn
        omega
      have hpow : 10 ^ k = 10 ^ (k - 1) * 10 := by
        conv_lhs => rw [show k = (k - 1) + 1 by omega]
        rw [pow_succ]
      have hdiv : n / 10 < 10 ^ (k - 1) := by
        rw [Nat.div_lt_iff_lt_mul (by norm_num)]
        omega
      have := ih (k - 1) (n / 10) (Nat.digitChar (n % 10) :: acc) hdiv (by omega)
      simp only [List.length_cons] at this
      omega

/-- A pin number below `100000` prints in at most five characters. -/
theorem decStr_length_le (n : Nat) (h : n < 100000) : (decStr n).length ≤ 5 := by
  have h5 : n < 10 ^ 5 := by norm_num; omega
  have := decDigitsCore_length (n + 1) 5 n [] h5 (by omega)
  simpa [decStr, String.length] using this

/-- The NUL byte left by a zero-length read is not the digit `'0'`. -/
theorem charNul_ne_zero : Char.ofNat 0 ≠ '0' := by decide

/-- The NUL byte left by a zero-length read is not the digit `'1'`. -/
theorem charNul_ne_one : Char.ofNat 0 ≠ '1' := by decide


/-- C9: `gpio_get_value` called with a NULL output pointer returns false
immediately, without checking the pin's exported state, opening any file,
or reading anything (the trace is empty). -/
theorem c9_null_pointer_immediate_failure (env : SysEnv) (pin : Nat) :
    gpio_get_value env true pin = (false, none, []) := rfl

/-- C3: on a pin whose sysfs directory does not exist, `gpio_set_direction`,
`gpio_set_value`, `gpio_set_edge` and `gpio_get_value` all return false
deterministically, without attempting any `open` and without any `write`. -/
theorem c3_not_exported_fails_without_write (env : SysEnv) (pin : Nat)
    (d v e : Int) (b : Bool)
    (h : env.pathExists (gpioDirPath pin) = false) :
    ((gpio_set_direction env pin d).1 = false ∧
      openAttempts (gpio_set_direction env pin d).2 = [] ∧
      writesOf (gpio_set_direction env pin d).2 = []) ∧
    ((gpio_set_value env pin v).1 = false ∧
      openAttempts (gpio_set_value env pin v).2 = [] ∧
      writesOf (gpio_set_value env pin v).2 = []) ∧
    ((gpio_set_edge env pin e).1 = false ∧
      openAttempts (gpio_set_edge env pin e).2 = [] ∧
      writesOf (gpio_set_edge env pin e).2 = []) ∧
    ((gpio_get_value env b pin).1 = false ∧
      openAttempts (gpio_get_value env b pin).2.2 = [] ∧
      writesOf (gpio_get_value env b pin).2.2 = []) := by
  cases b <;>
    simp [gpio_set_direction, gpio_set_value, gpio_set_edge, gpio_get_value,
      h, openAttempts, writesOf]

/-- Witness for C3 at a concrete environment in which no path exists. -/
theorem c3_not_exported_fails_without_write_witness :
    (gpio_set_direction envAbsent 5 0).1 = false ∧
    (gpio_get_value envAbsent false 5).1 = false := by
  have h := c3_not_exported_fails_without_write envAbsent 5 0 0 0 false rfl
  exact ⟨h.1.1, h.2.2.2.1⟩

/-- C4: the claim that `gpio_set_direction`, `gpio_set_value` and
`gpio_set_edge` close their opened descriptor even when the enum argument
matches no declared case fails on the code: in the `default:` branch each
returns false without closing, leaking the descriptor (here descriptor 3 on
an exported pin whose file opens successfully). -/
theorem c4_default_branch_leaks_descriptor :
    ((gpio_set_direction envAllOk 5 2).1 = false ∧
      opensOf (gpio_set_direction envAllOk 5 2).2 = [3] ∧
      closesOf (gpio_set_direction envAllOk 5 2).2 = [] ∧
      ¬ closesAllOpens (gpio_set_direction envAllOk 5 2).2) ∧
    ((gpio_set_value envAllOk 5 2).1 = false ∧
      opensOf (gpio_set_value envAllOk 5 2).2 = [3] ∧
      closesOf (gpio_set_value envAllOk 5 2).2 = [] ∧
      ¬ closesAllOpens (gpio_set_value envAllOk 5 2).2) ∧
    ((gpio_set_edge envAllOk 5 4).1 = false ∧
      opensOf (gpio_set_edge envAllOk 5 4).2 = [3] ∧
      closesOf (gpio_set_edge envAllOk 5 4).2 = [] ∧
      ¬ closesAllOpens (gpio_set_edge envAllOk 5 4).2) := by
  decide

/-- C7: `gpio_open` performs exactly one `open` of `gpioN/value` with
`O_RDONLY | O_NONBLOCK`; on success it returns the resulting nonnegative
descriptor, and whenever the open fails it returns the sentinel `-1`. -/
theorem c7_open_value_fd (env : SysEnv) (pin : Nat) :
    (gpio_open env pin).2 =
      [Event.openEv (valuePath pin) .rdonlyNonblock
        (env.openFile (valuePath pin) .rdonlyNonblock)] ∧
    (∀ fd, env.openFile (valuePath pin) .rdonlyNonblock = some fd →
      (gpio_open env pin).1 = (fd : Int) ∧ 0 ≤ (gpio_open env pin).1) ∧
    (env.openFile (valuePath pin) .rdonlyNonblock = none →
      (gpio_open env pin).1 = -1) := by
  cases hof : env.openFile (valuePath pin) .rdonlyNonblock with
  | none => simp [gpio_open, hof]
  | some fd =>
    refine ⟨by simp [gpio_open, hof], ?_, by simp [hof]⟩
    intro fd2 hfd2
    injection hfd2 with hfd2
    subst hfd2
    simp [gpio_open, hof]

/-- Witness for C7: an environment whose open succeeds with descriptor 3,
and one whose open fails. -/
theorem c7_open_value_fd_witness :
    (gpio_open envAllOk 5).1 = 3 ∧ (gpio_open envAbsent 5).1 = -1 := by
  exact ⟨((c7_open_value_fd envAllOk 5).2.1 3 rfl).1, (c7_open_value_fd envAbsent 5).2.2 rfl⟩

/-- C10: for every uint16_t pin number, each formatted sysfs path fits
strictly inside the 60-byte command buffer, so `snprintf` never truncates. -/
theorem c10_paths_fit_buffer (pin : Nat) (h : pin < 65536) :
    (gpioDirPath pin).length < CMD_BUF_MAX_LEN ∧
    (directionPath pin).length < CMD_BUF_MAX_LEN ∧
    (valuePath pin).length < CMD_BUF_MAX_LEN ∧
    (edgePath pin).length < CMD_BUF_MAX_LEN ∧
    exportPath.length < CMD_BUF_MAX_LEN ∧
    unexportPath.length < CMD_BUF_MAX_LEN := by
  have hd : (decStr pin).length ≤ 5 := decStr_length_le pin (by omega)
  have hbase : ("/sys/class/gpio" : String).length = 15 := by decide
  have hg : ("/gpio" : String).length = 5 := by decide
  have hdir : ("/direction" : String).length = 10 := by decide
  have hval : ("/value" : String).length = 6 := by decide
  have hedge : ("/edge" : String).length = 5 := by decide
  have hexp : exportPath.length < CMD_BUF_MAX_LEN := by decide
  have hunexp : unexportPath.length < CMD_BUF_MAX_LEN := by decide
  have hbg : ("/sys/class/gpio/gpio" : String).length = 20 := by decide
  have h1 : (gpioDirPath pin).length = 20 + (decStr pin).length := by
    simp [gpioDirPath, SYS_GPIO_DIR, String.length_append, hbase, hg, hbg]
  refine ⟨?_, ?_, ?_, ?_, hexp, hunexp⟩ <;>
    simp [directionPath, valuePath, edgePath, String.length_append, h1,
      hdir, hval, hedge, CMD_BUF_MAX_LEN] <;>
    omega

/-- Witness for C10 at the largest uint16_t pin number. -/
theorem c10_paths_fit_buffer_witness :
    (directionPath 65535).length < CMD_BUF_MAX_LEN :=
  (c10_paths_fit_buffer 65535 (by decide)).2.1


/-- C2 counterexample: in an environment where the pin's directory does not
exist, the export file opens (descriptor 3) and the write transfers the full
buffer, but the final close fails, `gpio_export` returns false — although
neither failure condition named by the claim (open failure, short write)
holds. -/
theorem c2_close_failure_cex :
    envExportCloseFail.pathExists (gpioDirPath 5) = false ∧
    envExportCloseFail.openFile exportPath .wronly = some 3 ∧
    envExportCloseFail.writeRes 3 (decStr 5) = ((decStr 5).length : Int) ∧
    (gpio_export envExportCloseFail 5).1 = false := by decide

/-- C2 (amended): `gpio_export` succeeds immediately (no open, no write) when
`/sys/class/gpio/gpioN` exists; otherwise it writes the decimal pin number to
the export file, and returns true exactly when the export file opens, the
write transfers the whole buffer, and the final close succeeds. -/
theorem c2_export_amended (env : SysEnv) (pin : Nat) :
    ((gpio_export env pin).1 = true ↔
      (env.pathExists (gpioDirPath pin) = true ∨
       ∃ fd, env.openFile exportPath .wronly = some fd ∧
         env.writeRes fd (decStr pin) = ((decStr pin).length : Int) ∧
         env.closeRes fd = 0)) ∧
    (env.pathExists (gpioDirPath pin) = true →
      writesOf (gpio_export env pin).2 = [] ∧
      openAttempts (gpio_export env pin).2 = []) ∧
    (env.pathExists (gpioDirPath pin) = false →
      ∀ fd, env.openFile exportPath .wronly = some fd →
        Event.writeEv fd (decStr pin) ∈ (gpio_export env pin).2) := by
  cases hpe : env.pathExists (gpioDirPath pin) with
  | true =>
    refine ⟨by simp [gpio_export, hpe], ?_, ?_⟩
    · intro _
      simp [gpio_export, hpe, writesOf, openAttempts]
    · intro h
      exact absurd h (by decide)
  | false =>
    cases hof : env.openFile exportPath .wronly with
    | none =>
      refine ⟨by simp [gpio_export, hpe, hof], ?_, ?_⟩
      · intro h
        exact absurd h (by decide)
      · intro _ fd hfd
        cases hfd
    | some fd =>
      refine ⟨?_, ?_, ?_⟩
      · by_cases hw : env.writeRes fd (decStr pin) = ((decStr pin).length : Int)
        · by_cases hc : env.closeRes fd = 0 <;>
            simp [gpio_export, hpe, hof, hw, hc]
        · have hw2 : ((decStr pin).length : Int) ≠ env.writeRes fd (decStr pin) :=
            fun hh => hw hh.symm
          simp [gpio_export, hpe, hof, hw, hw2]
      · intro h
        exact absurd h (by decide)
      · intro _ fd2 hfd2
        injection hfd2 with hfd2
        subst hfd2
        simp [gpio_export, hpe, hof, apply_ite]

/-- Witness for C2: on an exported pin nothing is written; on a
non-exported pin with a working open, the decimal pin number is written. -/
theorem c2_export_amended_witness :
    writesOf (gpio_export envCloseFail 5).2 = [] ∧
    Event.writeEv 3 (decStr 5) ∈ (gpio_export envExportCloseFail 5).2 := by
  refine ⟨((c2_export_amended envCloseFail 5).2.1 (by decide)).1, ?_⟩
  exact (c2_export_amended envExportCloseFail 5).2.2 (by decide) 3 (by decide)

/-- C6 counterexample: on an exported pin whose unexport file opens
(descriptor 3) with a full write, a failing final close makes
`gpio_unexport` return false, although neither failure condition named by
the claim holds. -/
theorem c6_close_failure_cex :
    envCloseFail.pathExists (gpioDirPath 5) = true ∧
    envCloseFail.openFile unexportPath .wronly = some 3 ∧
    envCloseFail.writeRes 3 (decStr 5) = ((decStr 5).length : Int) ∧
    (gpio_unexport envCloseFail 5).1 = false := by decide

/-- C6 (amended): `gpio_unexport` succeeds immediately (no open, no write)
when the pin's directory does not exist; otherwise it writes the decimal pin
number to the unexport file, and returns true exactly when the unexport file
opens, the write transfers the whole buffer, and the final close succeeds. -/
theorem c6_unexport_amended (env : SysEnv) (pin : Nat) :
    ((gpio_unexport env pin).1 = true ↔
      (env.pathExists (gpioDirPath pin) = false ∨
       ∃ fd, env.openFile unexportPath .wronly = some fd ∧
         env.writeRes fd (decStr pin) = ((decStr pin).length : Int) ∧
         env.closeRes fd = 0)) ∧
    (env.pathExists (gpioDirPath pin) = false →
      writesOf (gpio_unexport env pin).2 = [] ∧
      openAttempts (gpio_unexport env pin).2 = []) ∧
    (env.pathExists (gpioDirPath pin) = true →
      ∀ fd, env.openFile unexportPath .wronly = some fd →
        Event.writeEv fd (decStr pin) ∈ (gpio_unexport env pin).2) := by
  cases hpe : env.pathExists (gpioDirPath pin) with
  | false =>
    refine ⟨by simp [gpio_unexport, hpe], ?_, ?_⟩
    · intro _
      simp [gpio_unexport, hpe, writesOf, openAttempts]
    · intro h
      exact absurd h (by decide)
  | true =>
    cases hof : env.openFile unexportPath .wronly with
    | none =>
      refine ⟨by simp [gpio_unexport, hpe, hof], ?_, ?_⟩
      · intro h
        exact absurd h (by decide)
      · intro _ fd hfd
        cases hfd
    | some fd =>
      refine ⟨?_, ?_, ?_⟩
      · by_cases hw : env.writeRes fd (decStr pin) = ((decStr pin).length : Int)
        · by_cases hc : env.closeRes fd = 0 <;>
            simp [gpio_unexport, hpe, hof, hw, hc]
        · have hw2 : ((decStr pin).length : Int) ≠ env.writeRes fd (decStr pin) :=
            fun hh => hw hh.symm
          simp [gpio_unexport, hpe, hof, hw, hw2]
      · intro h
        exact absurd h (by decide)
      · intro _ fd2 hfd2
        injection hfd2 with hfd2
        subst hfd2
        simp [gpio_unexport, hpe, hof, apply_ite]

/-- Witness for C6: on a never-exported pin nothing is written; on an
exported pin with a working open, the decimal pin number is written. -/
theorem c6_unexport_amended_witness :
    writesOf (gpio_unexport envAbsent 5).2 = [] ∧
    Event.writeEv 3 (decStr 5) ∈ (gpio_unexport envCloseFail 5).2 := by
  refine ⟨((c6_unexport_amended envAbsent 5).2.1 (by decide)).1, ?_⟩
  exact (c6_unexport_amended envCloseFail 5).2.2 (by decide) 3 (by decide)


/-- C1 counterexample: on an exported pin whose value file opens
(descriptor 3) and yields the byte `'0'`, a failing final close makes
`gpio_get_value` return false — the claim says that after reading `'0'` it
stores LOW and returns true. -/
theorem c1_close_failure_cex :
    envCloseFail.pathExists (gpioDirPath 5) = true ∧
    envCloseFail.openFile (valuePath 5) .rdonly = some 3 ∧
    envCloseFail.readByte 3 = some (some '0') ∧
    (gpio_get_value envCloseFail false 5).1 = false := by decide

/-- C1 (amended): `gpio_get_value` returns true exactly when the pin is
exported, the value file opens for reading, the single byte read is `'0'`
or `'1'`, and the final close succeeds; the byte `'0'` stores LOW and `'1'`
stores HIGH through the output pointer (any other byte, a zero-length read,
a read error, or a close failure yields false); it reads exactly once. -/
theorem c1_get_value_amended (env : SysEnv) (pin : Nat) :
    ((gpio_get_value env false pin).1 = true ↔
      (env.pathExists (gpioDirPath pin) = true ∧
       ∃ fd, env.openFile (valuePath pin) .rdonly = some fd ∧
         (∃ c, env.readByte fd = some (some c) ∧ (c = '0' ∨ c = '1')) ∧
         env.closeRes fd ≠ -1)) ∧
    (∀ fd c, env.pathExists (gpioDirPath pin) = true →
      env.openFile (valuePath pin) .rdonly = some fd →
      env.readByte fd = some (some c) →
      (gpio_get_value env false pin).2.1 =
        (if c = '0' then some E_GPIO_LOW
         else if c = '1' then some E_GPIO_HIGH else none)) ∧
    (∀ fd, env.pathExists (gpioDirPath pin) = true →
      env.openFile (valuePath pin) .rdonly = some fd →
      readsOf (gpio_get_value env false pin).2.2 = [fd]) := by
  cases hpe : env.pathExists (gpioDirPath pin) with
  | false =>
    refine ⟨by simp [gpio_get_value, hpe], ?_, ?_⟩
    · intro fd c h
      exact absurd h (by decide)
    · intro fd h
      exact absurd h (by decide)
  | true =>
    cases hof : env.openFile (valuePath pin) .rdonly with
    | none =>
      refine ⟨by simp [gpio_get_value, hpe, hof], ?_, ?_⟩
      · intro fd c _ h
        cases h
      · intro fd _ h
        cases h
    | some fd =>
      refine ⟨?_, ?_, ?_⟩
      · cases hrb : env.readByte fd with
        | none => simp [gpio_get_value, hpe, hof, hrb]
        | some b =>
          cases b with
          | none =>
            simp [gpio_get_value, hpe, hof, hrb, charNul_ne_zero, charNul_ne_one]
          | some c =>
            by_cases h0 : c = '0'
            · by_cases hcl : env.closeRes fd = -1 <;>
                simp [gpio_get_value, hpe, hof, hrb, h0, hcl]
            · by_cases h1 : c = '1'
              · by_cases hcl : env.closeRes fd = -1 <;>
                  simp [gpio_get_value, hpe, hof, hrb, h0, h1, hcl]
              · simp [gpio_get_value, hpe, hof, hrb, h0, h1]
      · intro fd2 c _ hfd2 hrb
        injection hfd2 with hfd2
        subst hfd2
        by_cases h0 : c = '0'
        · by_cases hcl : env.closeRes fd = -1 <;>
            simp [gpio_get_value, hpe, hof, hrb, h0, hcl]
        · by_cases h1 : c = '1'
          · by_cases hcl : env.closeRes fd = -1 <;>
              simp [gpio_get_value, hpe, hof, hrb, h0, h1, hcl]
          · simp [gpio_get_value, hpe, hof, hrb, h0, h1]
      · intro fd2 _ hfd2
        injection hfd2 with hfd2
        subst hfd2
        cases hrb : env.readByte fd with
        | none => simp [gpio_get_value, hpe, hof, hrb, readsOf]
        | some b =>
          cases b with
          | none =>
            simp [gpio_get_value, hpe, hof, hrb, readsOf, charNul_ne_zero,
              charNul_ne_one]
          | some c =>
            by_cases h0 : c = '0'
            · by_cases hcl : env.closeRes fd = -1 <;>
                simp [gpio_get_value, hpe, hof, hrb, h0, hcl, readsOf]
            · by_cases h1 : c = '1'
              · by_cases hcl : env.closeRes fd = -1 <;>
                  simp [gpio_get_value, hpe, hof, hrb, h0, h1, hcl, readsOf]
              · simp [gpio_get_value, hpe, hof, hrb, h0, h1, readsOf]

/-- Witness for C1: in a fully working environment the byte `'0'` stores
LOW and the function reads exactly once from the opened descriptor. -/
theorem c1_get_value_amended_witness :
    (gpio_get_value envAllOk false 5).2.1 = some E_GPIO_LOW ∧
    readsOf (gpio_get_value envAllOk false 5).2.2 = [3] := by
  have h := c1_get_value_amended envAllOk 5
  have h2 := h.2.1 3 '0' (by decide) (by decide) (by decide)
  have h3 := h.2.2 3 (by decide) (by decide)
  exact ⟨by simpa using h2, h3⟩

/-- C8 counterexample: with a failing final close, `gpio_get_value` returns
false after reading `'0'`, yet the output object has already been set to
LOW — the claim says a false return leaves the output unchanged. -/
theorem c8_false_return_with_modified_output_cex :
    (gpio_get_value envCloseFail false 5).1 = false ∧
    (gpio_get_value envCloseFail false 5).2.1 = some E_GPIO_LOW := by decide

/-- C8 (amended): `gpio_get_value` writes through the output pointer exactly
when the byte read is `'0'` or `'1'`; on every other path (NULL pointer,
unexported pin, open failure, read failure, any other byte) the output
object is unchanged — but a `'0'`/`'1'` write also happens on the false
return caused by a failing final close. -/
theorem c8_output_written_iff_digit_byte (env : SysEnv) (pin : Nat) (b : Bool) :
    (gpio_get_value env b pin).2.1 ≠ none ↔
      (b = false ∧ env.pathExists (gpioDirPath pin) = true ∧
       ∃ fd, env.openFile (valuePath pin) .rdonly = some fd ∧
         ∃ c, env.readByte fd = some (some c) ∧ (c = '0' ∨ c = '1')) := by
  cases b with
  | true => simp [gpio_get_value]
  | false =>
    cases hpe : env.pathExists (gpioDirPath pin) with
    | false => simp [gpio_get_value, hpe]
    | true =>
      cases hof : env.openFile (valuePath pin) .rdonly with
      | none => simp [gpio_get_value, hpe, hof]
      | some fd =>
        cases hrb : env.readByte fd with
        | none => simp [gpio_get_value, hpe, hof, hrb]
        | some bb =>
          cases bb with
          | none =>
            simp [gpio_get_value, hpe, hof, hrb, charNul_ne_zero, charNul_ne_one]
          | some c =>
            by_cases h0 : c = '0'
            · by_cases hcl : env.closeRes fd = -1 <;>
                simp [gpio_get_value, hpe, hof, hrb, h0, hcl]
            · by_cases h1 : c = '1'
              · by_cases hcl : env.closeRes fd = -1 <;>
                  simp [gpio_get_value, hpe, hof, hrb, h0, h1, hcl]
              · simp [gpio_get_value, hpe, hof, hrb, h0, h1]

/-- Witness for C8: in a fully working environment the output object is
written. -/
theorem c8_output_written_iff_digit_byte_witness :
    (gpio_get_value envAllOk false 5).2.1 ≠ none :=
  (c8_output_written_iff_digit_byte envAllOk 5 false).mpr
    ⟨rfl, by decide, 3, by decide, '0', by decide, Or.inl rfl⟩

/-- C5: `gpio_export` and `gpio_unexport` treat any write shorter than
requested as failure (returning false after closing), whereas
`gpio_set_direction`, `gpio_set_value` and `gpio_set_edge` only treat a
write return of `-1` as failure, so a short but nonnegative write there
still yields true (when the close succeeds). -/
theorem c5_short_write_asymmetry (env : SysEnv) (a b : Nat)
    (fd1 fd2 fd3 fd4 fd5 : Nat)
    (ha : env.pathExists (gpioDirPath a) = false)
    (hb : env.pathExists (gpioDirPath b) = true)
    (ho1 : env.openFile exportPath .wronly = some fd1)
    (hw1 : env.writeRes fd1 (decStr a) < ((decStr a).length : Int))
    (ho2 : env.openFile unexportPath .wronly = some fd2)
    (hw2 : env.writeRes fd2 (decStr b) < ((decStr b).length : Int))
    (ho3 : env.openFile (directionPath b) .wronly = some fd3)
    (hw3 : 0 ≤ env.writeRes fd3 "in")
    (hc3 : env.closeRes fd3 ≠ -1)
    (ho4 : env.openFile (valuePath b) .wronly = some fd4)
    (hw4 : 0 ≤ env.writeRes fd4 "0")
    (hc4 : env.closeRes fd4 ≠ -1)
    (ho5 : env.openFile (edgePath b) .wronly = some fd5)
    (hw5 : 0 ≤ env.writeRes fd5 "none")
    (hc5 : env.closeRes fd5 ≠ -1) :
    ((gpio_export env a).1 = false ∧ Event.closeEv fd1 ∈ (gpio_export env a).2) ∧
    ((gpio_unexport env b).1 = false ∧
      Event.closeEv fd2 ∈ (gpio_unexport env b).2) ∧
    (gpio_set_direction env b E_GPIO_IN).1 = true ∧
    (gpio_set_value env b E_GPIO_LOW).1 = true ∧
    (gpio_set_edge env b E_GPIO_NONE).1 = true := by
  have hne1 : ((decStr a).length : Int) ≠ env.writeRes fd1 (decStr a) := by omega
  have hne2 : ((decStr b).length : Int) ≠ env.writeRes fd2 (decStr b) := by omega
  have hr3 : env.writeRes fd3 "in" ≠ -1 := by omega
  have hr4 : env.writeRes fd4 "0" ≠ -1 := by omega
  have hr5 : env.writeRes fd5 "none" ≠ -1 := by omega
  refine ⟨?_, ?_, ?_, ?_, ?_⟩
  · simp [gpio_export, ha, ho1, hne1]
  · simp [gpio_unexport, hb, ho2, hne2]
  · simp [gpio_set_direction, hb, ho3, E_GPIO_IN, hr3, hc3]
  · simp [gpio_set_value, hb, ho4, E_GPIO_LOW, hr4, hc4]
  · simp [gpio_set_edge, hb, ho5, E_GPIO_NONE, hr5, hc5]

/-- Witness for C5: in an environment where every write returns 0 (short
but nonnegative), export on a non-exported pin fails while setting the
direction of an exported pin succeeds. -/
theorem c5_short_write_asymmetry_witness :
    (gpio_export envShortWrite 5).1 = false ∧
    (gpio_set_direction envShortWrite 7 E_GPIO_IN).1 = true := by
  have h := c5_short_write_asymmetry envShortWrite 5 7 3 3 3 3 3
    (by decide) (by decide) (by decide) (by decide) (by decide) (by decide)
    (by decide) (by decide) (by decide) (by decide) (by decide) (by decide)
    (by decide) (by decide) (by decide)
  exact ⟨h.1.1, h.2.2.1⟩

end LinuxGpio
